import Mathlib

/-!
Shallow embedding of the OpenDao order-ingestion module of the
`nfnt-indexer` repository, together with proofs about the claims of its
specification.

The embedding covers:
  * the per-order validation pipeline and batch `save` entry point
    (source file: the OpenDao `save` module, `src/unnamed/part_000`);
  * the block bookkeeping helpers (`src/unnamed/part_001`) are not needed
    by any claim and are not modelled;
  * the `Sources` registry (`src/src/models/sources/index.ts`).

External collaborators (the protocol SDK, the on-chain checker, the
token-set registry, the database driver) are modelled by explicit data:
each order carries the responses the external calls would return, and the
database is a list of rows with the SQL queries of the source translated
into list scans.  All token amounts are natural numbers; the BigNumber
library of the source only ever sees non-negative integers here and its
integer division is `Nat` floor division.  A BigNumber division by zero
(or by an undefined operand) throws, which the per-order catch-all of the
source turns into a silently dropped order: the embedding models this as
the `dropped` outcome.
-/

/-- Zero address constant (`@ethersproject/constants` AddressZero). -/
def AddressZero : String := "0x0000000000000000000000000000000000000000"

namespace OpenDao

/-- Trade direction of an order (SDK `TradeDirection`), SELL or BUY. -/
inductive TradeDirection
  | sell
  | buy
deriving DecidableEq, Repr

/-- One declared fee entry of an order (`order.params.fees`). -/
structure Fee where
  recipient : String
  amount : Nat
deriving DecidableEq, Repr

/-- The fields of `Sdk.OpenDao.Types.BaseOrder` that the pipeline reads. -/
structure BaseOrder where
  direction : TradeDirection
  maker : String
  taker : String
  expiry : Nat
  nonce : Nat
  erc20Token : String
  erc20TokenAmount : Nat
  fees : List Fee
  nft : String
  nftId : Nat
  nftAmount : Option Nat
  kind : Option String
deriving DecidableEq, Repr

/-- Metadata accompanying a raw order (`OrderMetadata`). -/
structure OrderMetadata where
  schemaHash : Option String
  source : Option String
deriving DecidableEq, Repr

/-- Result of the external on-chain checker `offChainCheck`: it either
returns normally or throws an error carrying a message string. -/
inductive OffChainResult
  | ok
  | failedWith (message : String)
deriving DecidableEq, Repr

/-- Asset standard returned by `commonHelpers.getContractKind`. -/
inductive ContractKind
  | erc721
  | erc1155
deriving DecidableEq, Repr

/-- Responses of the external collaborators for one order: the order hash
(`order.hash()`), the contract kind lookup, the two SDK checks
(`checkValidity`, `checkSignature`, modelled by whether they throw), the
on-chain fillability check, and the value `generateSchemaHash` would
produce when the metadata carries no schema hash. -/
structure Externals where
  hashId : String
  contractKind : Option ContractKind
  checkValidityOk : Bool
  checkSignatureOk : Bool
  offChainResult : OffChainResult
  generatedSchemaHash : String
deriving DecidableEq, Repr

/-- One element of the input batch (`OrderInfo` of the source), extended
with the modelled external responses for this order. -/
structure OrderInfo where
  orderParams : BaseOrder
  metadata : OrderMetadata
  ext : Externals
deriving DecidableEq, Repr

/-- Chain-dependent configuration: the addresses the pipeline compares
against (`Sdk.Common.Addresses.Weth[chainId]`,
`Sdk.OpenDao.Addresses.Eth[chainId]`,
`Sdk.OpenDao.Addresses.Exchange[chainId]`). -/
structure Config where
  wethAddress : String
  ethAddress : String
  exchangeAddress : String
deriving DecidableEq, Repr

/-- The closed set of terminal statuses of the pipeline. -/
inductive Status
  | alreadyExists
  | unknownOrderKind
  | duplicatedNonce
  | expired
  | unsupportedPaymentToken
  | unsupportedTaker
  | invalid
  | invalidSignature
  | notFillable
  | invalidTokenSet
  | feesTooHigh
  | success
deriving DecidableEq, Repr

/-- One entry of the result list of `save` (`SaveResult`). -/
structure SaveResult where
  id : String
  status : Status
deriving DecidableEq, Repr

/-- One entry of the persisted `fee_breakdown` column. -/
structure FeeBreakdownEntry where
  kind : String
  recipient : String
  bps : Nat
deriving DecidableEq, Repr

/-- One row of the `orders` table, with the columns the module writes and
queries.  `price` and `value` are numeric; `valid_between`, `dynamic` and
the buffer encodings of the source are representation details that carry
no information beyond the fields kept here. -/
structure DbOrder where
  id : String
  kind : String
  side : String
  fillability_status : String
  approval_status : String
  token_set_id : String
  token_set_schema_hash : String
  maker : String
  taker : String
  price : Nat
  value : Nat
  quantity_remaining : Option Nat
  nonce : Nat
  source_id : Option String
  contract : String
  fee_bps : Nat
  fee_breakdown : List FeeBreakdownEntry
  raw_data : BaseOrder
  expiration : Nat
deriving DecidableEq, Repr

/-- The `orders` table. -/
structure OrdersDB where
  rows : List DbOrder
deriving DecidableEq, Repr

/-- Query `SELECT 1 FROM orders WHERE orders.id = $/id/`. -/
def orderIdExists (db : OrdersDB) (id : String) : Bool :=
  db.rows.any (fun r => r.id == id)

/-- Query of the erc1155 nonce-uniqueness check: an order of kind
`opendao-erc1155` with the given maker and nonce exists. -/
def nonceExistsErc1155 (db : OrdersDB) (maker : String) (nonce : Nat) : Bool :=
  db.rows.any (fun r => r.kind == "opendao-erc1155" && r.maker == maker && r.nonce == nonce)

/-- Query of the erc721 nonce-uniqueness check: an order of kind
`opendao-erc721` with the given maker, nonce, contract and price exists.
The price parameter the source passes is `order.params.erc20TokenAmount`. -/
def nonceExistsErc721 (db : OrdersDB) (maker : String) (nonce : Nat)
    (contract : String) (price : Nat) : Bool :=
  db.rows.any (fun r =>
    r.kind == "opendao-erc721" && r.maker == maker && r.nonce == nonce &&
    r.contract == contract && r.price == price)

/-- Dispatch of the nonce-uniqueness check on the contract kind (source
lines 64 to 109): erc1155 enforces maker/nonce, erc721 enforces
maker/nonce/contract/price. -/
def nonceQuery (db : OrdersDB) (ck : ContractKind) (o : BaseOrder) : Bool :=
  match ck with
  | .erc1155 => nonceExistsErc1155 db o.maker o.nonce
  | .erc721 => nonceExistsErc721 db o.maker o.nonce o.nft o.erc20TokenAmount

/-- SDK `order.getFeeAmount()`: the sum of the declared fee amounts. -/
def getFeeAmount (o : BaseOrder) : Nat :=
  o.fees.foldl (fun acc f => acc + f.amount) 0

/-- String prefix test, equivalent to `String.startsWith` but expressed
on the character lists so that it evaluates by kernel reduction. -/
def strStartsWith (s pre : String) : Bool :=
  pre.data.isPrefixOf s.data

/-- The divisibility test of the pricing stage:
`order.params.kind?.startsWith("erc1155")`. -/
def kindIsErc1155 (o : BaseOrder) : Bool :=
  match o.kind with
  | some k => strStartsWith k "erc1155"
  | none => false

/-- Price and value computation of the pricing stage (source lines
242 to 255): `price = erc20TokenAmount + feeAmount`, `value = price` for
sell orders and `price - feeAmount` for buy orders, and both divided by
`nftAmount` for erc1155-style orders.  Returns `none` when the BigNumber
division would throw: a missing or zero `nftAmount` divisor. -/
def unitEconomics (o : BaseOrder) : Option (Nat × Nat) :=
  let feeAmount := getFeeAmount o
  let price := o.erc20TokenAmount + feeAmount
  let value := if o.direction = .buy then price - feeAmount else price
  if kindIsErc1155 o then
    match o.nftAmount with
    | some q => if q = 0 then none else some (price / q, value / q)
    | none => none
  else
    some (price, value)

/-- The computed fee basis points of an order (source line 257):
`feeAmount * 10000 / price` over the per-unit price.  Returns `none` when
the computation would throw (unit division undefined, or unit price 0). -/
def feeBpsOf (o : BaseOrder) : Option Nat :=
  match unitEconomics o with
  | none => none
  | some (price, _) => if price = 0 then none else some (getFeeAmount o * 10000 / price)

/-- Mapping of the `offChainCheck` result to the persisted
`(fillability_status, approval_status)` pair (source lines 172 to 194):
the statuses start as `fillable`/`approved`, the three recoverable error
messages adjust them, and any other error is terminal (`none`). -/
def fillabilityOf : OffChainResult → Option (String × String)
  | .ok => some ("fillable", "approved")
  | .failedWith msg =>
    if msg == "no-balance-no-approval" then some ("no-balance", "no-approval")
    else if msg == "no-approval" then some ("fillable", "no-approval")
    else if msg == "no-balance" then some ("no-balance", "approved")
    else none

/-- Token-set resolution (source lines 200 to 227): the single-token kinds
resolve to the constructed id `token:<nft>:<nftId>` through the token-set
collaborator, every other kind leaves the id unresolved. -/
def tokenSetIdOf (o : BaseOrder) : Option String :=
  match o.kind with
  | some k =>
    if k == "erc721-single-token" || k == "erc1155-single-token" then
      some ("token:" ++ o.nft ++ ":" ++ toString o.nftId)
    else none
  | none => none

/-- The schema hash used for the row:
`metadata.schemaHash ?? generateSchemaHash(metadata.schema)`. -/
def schemaHashOf (info : OrderInfo) : String :=
  info.metadata.schemaHash.getD info.ext.generatedSchemaHash

/-- The resolved source:
`metadata.source ?? Sdk.OpenDao.Addresses.Exchange[config.chainId]`. -/
def sourceOf (cfg : Config) (info : OrderInfo) : String :=
  info.metadata.source.getD cfg.exchangeAddress

/-- String form of a contract kind, as interpolated into `opendao-<kind>`. -/
def ContractKind.str : ContractKind → String
  | .erc721 => "erc721"
  | .erc1155 => "erc1155"

/-- Outcome of `handleOrder` for one order: either a `(id, status)` result
with the row pushed for persistence (present exactly on success), or the
order was dropped by the catch-all handler after an unexpected throw. -/
inductive HandleOutcome
  | dropped
  | result (res : SaveResult) (row : Option DbOrder)
deriving DecidableEq, Repr

/-- The per-order pipeline `handleOrder` of the source, as a function of
the configuration, the current time (`Math.floor(Date.now() / 1000)`), the
database state and the order.  Each stage mirrors one check of the source
in order; the payment-token stage reproduces the source conditions
verbatim: both tests are on the BUY direction. -/
def handleOrder (cfg : Config) (currentTime : Nat) (db : OrdersDB)
    (info : OrderInfo) : HandleOutcome :=
  -- Check: order does not already exist
  match orderIdExists db info.ext.hashId with
  | true => .result ⟨info.ext.hashId, .alreadyExists⟩ none
  | false =>
    -- Handle: get order kind
    match info.ext.contractKind with
    | none => .result ⟨info.ext.hashId, .unknownOrderKind⟩ none
    | some kind =>
      -- Check: order has unique nonce
      match nonceQuery db kind info.orderParams with
      | true => .result ⟨info.ext.hashId, .duplicatedNonce⟩ none
      | false =>
      -- Check: order is not expired
      match decide (info.orderParams.expiry ≤ currentTime) with
      | true => .result ⟨info.ext.hashId, .expired⟩ none
      | false =>
      -- Check: buy order has Weth as payment token
      match info.orderParams.direction == .buy &&
            info.orderParams.erc20Token != cfg.wethAddress with
      | true => .result ⟨info.ext.hashId, .unsupportedPaymentToken⟩ none
      | false =>
      -- Check labelled <<sell order has Eth as payment token>> in the
      -- source, whose condition nevertheless tests the BUY direction
      match info.orderParams.direction == .buy &&
            info.orderParams.erc20Token != cfg.ethAddress with
      | true => .result ⟨info.ext.hashId, .unsupportedPaymentToken⟩ none
      | false =>
      -- Check: order is not private
      match info.orderParams.taker != AddressZero with
      | true => .result ⟨info.ext.hashId, .unsupportedTaker⟩ none
      | false =>
      -- Check: order is valid
      match info.ext.checkValidityOk with
      | false => .result ⟨info.ext.hashId, .invalid⟩ none
      | true =>
      -- Check: order has a valid signature
      match info.ext.checkSignatureOk with
      | false => .result ⟨info.ext.hashId, .invalidSignature⟩ none
      | true =>
      -- Check: order fillability
      match fillabilityOf info.ext.offChainResult with
      | none => .result ⟨info.ext.hashId, .notFillable⟩ none
      | some (fillabilityStatus, approvalStatus) =>
        -- Check and save: associated token set
        match tokenSetIdOf info.orderParams with
        | none => .result ⟨info.ext.hashId, .invalidTokenSet⟩ none
        | some tsId =>
          -- Handle: fees, price and value
          match unitEconomics info.orderParams with
          | none => .dropped
          | some (price, value) =>
            match price == 0 with
            | true => .dropped
            | false =>
              match decide (10000 < getFeeAmount info.orderParams * 10000 / price) with
              | true => .result ⟨info.ext.hashId, .feesTooHigh⟩ none
              | false =>
                .result ⟨info.ext.hashId, .success⟩ (some
                  { id := info.ext.hashId
                    kind := "opendao-" ++ kind.str
                    side := if info.orderParams.direction = .buy then "buy" else "sell"
                    fillability_status := fillabilityStatus
                    approval_status := approvalStatus
                    token_set_id := tsId
                    token_set_schema_hash := schemaHashOf info
                    maker := info.orderParams.maker
                    taker := AddressZero
                    price := price
                    value := value
                    quantity_remaining := info.orderParams.nftAmount
                    nonce := info.orderParams.nonce
                    source_id := some (sourceOf cfg info)
                    contract := info.orderParams.nft
                    fee_bps := getFeeAmount info.orderParams * 10000 / price
                    fee_breakdown := info.orderParams.fees.map (fun f =>
                      { kind := "royalty", recipient := f.recipient,
                        bps := f.amount * 10000 / price })
                    raw_data := info.orderParams
                    expiration := info.orderParams.expiry })

/-- The status of a handled order, when one was reported. -/
def statusOf : HandleOutcome → Option Status
  | .dropped => none
  | .result r _ => some r.status

/-- The row a handled order contributed for persistence, if any. -/
def rowOf : HandleOutcome → Option DbOrder
  | .dropped => none
  | .result _ row => row

/-- The accumulators of the batch: the `results`, `orderValues` and
arweave lists the per-order handlers push into. -/
structure BatchAcc where
  results : List SaveResult
  orderValues : List DbOrder
  arweaveIds : List String
deriving DecidableEq, Repr

/-- Effect of one handled order on the batch accumulators: a dropped
order pushes nothing; otherwise the result entry, the row when present,
and (when arweave relay is requested and the order succeeded) the arweave
payload, identified here by the order hash. -/
def handleInto (cfg : Config) (currentTime : Nat) (db : OrdersDB)
    (relayToArweave : Bool) (acc : BatchAcc) (info : OrderInfo) : BatchAcc :=
  match handleOrder cfg currentTime db info with
  | .dropped => acc
  | .result r row =>
    { results := acc.results ++ [r]
      orderValues := acc.orderValues ++ row.toList
      arweaveIds := acc.arweaveIds ++
        (if relayToArweave ∧ r.status = .success then [r.id] else []) }

/-- Processing of the whole batch: every order runs against the same
database snapshot (the bulk insert only happens after all orders are
handled), and the accumulators collect the pushes.  The concurrency
limiter of the source bounds in-flight work but every handler runs to
completion before persistence; the fold keeps the input order. -/
def processOrders (cfg : Config) (currentTime : Nat) (db : OrdersDB)
    (relayToArweave : Bool) (infos : List OrderInfo) : BatchAcc :=
  infos.foldl (handleInto cfg currentTime db relayToArweave) ⟨[], [], []⟩

/-- Insert of a single row under `ON CONFLICT DO NOTHING` semantics on the
primary key `id`: a conflicting row is left untouched. -/
def insertRow (db : OrdersDB) (row : DbOrder) : OrdersDB :=
  if orderIdExists db row.id then db else ⟨db.rows ++ [row]⟩

/-- The bulk insert `pgp.helpers.insert(orderValues, columns)` followed by
`ON CONFLICT DO NOTHING`. -/
def insertMany (db : OrdersDB) (rows : List DbOrder) : OrdersDB :=
  rows.foldl insertRow db

/-- Point lookup of the row persisted under an id. -/
def lookupById (db : OrdersDB) (id : String) : Option DbOrder :=
  db.rows.find? (fun r => r.id == id)

/-- One enqueued order-update event
(`{ context, id, trigger: { kind: "new-order" } }`). -/
structure OrderEvent where
  context : String
  id : String
  triggerKind : String
deriving DecidableEq, Repr

/-- The events handed to `ordersUpdateById.addToQueue`: one per result
with status `success`, keyed by the context `new-order-<id>`. -/
def newOrderEvents (results : List SaveResult) : List OrderEvent :=
  (results.filter (fun r => r.status == .success)).map (fun r =>
    { context := "new-order-" ++ r.id, id := r.id, triggerKind := "new-order" })

/-- Observable external action of the batch, in execution order. -/
inductive DbAction
  | insertOrders (rows : List DbOrder)
  | enqueueEvent (e : OrderEvent)
  | arweaveRelayPending (ids : List String)
deriving DecidableEq, Repr

/-- Return value and side effects of one `save` call. -/
structure SaveOutput where
  results : List SaveResult
  db : OrdersDB
  events : List OrderEvent
  trace : List DbAction
deriving DecidableEq, Repr

/-- Persistence tail of `save` (source lines 319 to 368): when rows were
produced, perform the one bulk conflict-ignoring insert, enqueue the
new-order events for the success results, and relay to arweave when
requested; with no rows, none of these effects happen.  The trace records
the external actions in the order the source awaits them. -/
def persistAndNotify (relayToArweave : Bool) (db : OrdersDB) (acc : BatchAcc) : SaveOutput :=
  if acc.orderValues.isEmpty then
    { results := acc.results, db := db, events := [], trace := [] }
  else
    { results := acc.results
      db := insertMany db acc.orderValues
      events := newOrderEvents acc.results
      trace := .insertOrders acc.orderValues ::
        (newOrderEvents acc.results).map .enqueueEvent ++
        (if relayToArweave then [.arweaveRelayPending acc.arweaveIds] else []) }

/-- The batch entry point `save`: handle every order against the incoming
database snapshot, then run the persistence and notification tail. -/
def save (cfg : Config) (currentTime : Nat) (infos : List OrderInfo)
    (relayToArweave : Bool) (db : OrdersDB) : SaveOutput :=
  persistAndNotify relayToArweave db (processOrders cfg currentTime db relayToArweave infos)

end OpenDao

namespace SourcesModel

/-- Metadata of a source entity (the fields the module reads or writes). -/
structure SourceMetadata where
  icon : Option String
  tokenUrlMainnet : Option String
  tokenUrlRinkeby : Option String
  tokenUrlFantom : Option String
  url : Option String
deriving DecidableEq, Repr

/-- A `SourcesEntity` of the sources registry. -/
structure SourcesEntity where
  id : Nat
  address : String
  name : String
  metadata : SourceMetadata
deriving DecidableEq, Repr

/-- The in-memory view of the `Sources` registry: the three keyed maps
the loader fills (`sources`, `sourcesByNames`, `sourcesByAddress`),
modelled as association lists; name and address keys are stored
lowercased, as the loader lowercases them. -/
structure Sources where
  sources : List (Nat × SourcesEntity)
  sourcesByNames : List (String × SourcesEntity)
  sourcesByAddress : List (String × SourcesEntity)
deriving DecidableEq, Repr

/-- `Sources.getDefaultSource()`: the built-in fallback entity. -/
def getDefaultSource : SourcesEntity :=
  { id := 0
    address := AddressZero
    name := "Enjoyooor NFT"
    metadata :=
      { icon := some "https://enjoyooor.com/logo.png"
        tokenUrlMainnet :=
          some "https://www.reservoir.market/collections/$\x7bcontract\x7d/$\x7btokenId\x7d"
        tokenUrlRinkeby :=
          some "https://www.reservoir.fun/collections/$\x7bcontract\x7d/$\x7btokenId\x7d"
        tokenUrlFantom :=
          some "https://www.enjoyooor.com/collections/$\x7bcontract\x7d/$\x7btokenId\x7d"
        url := none } }

/-- `Sources.prototype.get(id)`: the loaded entity when the id is known,
the default source otherwise. -/
def Sources.get (s : Sources) (id : Nat) : SourcesEntity :=
  match s.sources.lookup id with
  | some e => e
  | none => getDefaultSource

/-- `Sources.prototype.getByName(name, returnDefault)`: lookup of the
lowercased name, falling back to the default source when allowed.  The
source defaults `returnDefault` to `true`; the flag is explicit here. -/
def Sources.getByName (s : Sources) (name : String) (returnDefault : Bool) :
    Option SourcesEntity :=
  match s.sourcesByNames.lookup name.toLower with
  | some e => some e
  | none => if returnDefault then some getDefaultSource else none

/-- `Sources.prototype.getTokenUrl(sourceEntity, contract, tokenId)`: on
chain id 1 substitute into the mainnet template, otherwise into the
fantom template; no template means no url. -/
def getTokenUrl (chainId : Nat) (e : SourcesEntity) (contract tokenId : String) :
    Option String :=
  if chainId = 1 then
    match e.metadata.tokenUrlMainnet with
    | some u =>
      some ((u.replace "$\x7bcontract\x7d" contract).replace "$\x7btokenId\x7d" tokenId)
    | none => none
  else
    match e.metadata.tokenUrlFantom with
    | some u =>
      some ((u.replace "$\x7bcontract\x7d" contract).replace "$\x7btokenId\x7d" tokenId)
    | none => none

/-- `Sources.prototype.getByAddress(address, contract, tokenId,
returnDefault)`: lookup of the lowercased address with default fallback,
then, when both contract and tokenId are given, the metadata url is set
from `getTokenUrl`. -/
def Sources.getByAddress (s : Sources) (chainId : Nat) (address : String)
    (contract tokenId : Option String) (returnDefault : Bool) :
    Option SourcesEntity :=
  let base : Option SourcesEntity :=
    match s.sourcesByAddress.lookup address.toLower with
    | some e => some e
    | none => if returnDefault then some getDefaultSource else none
  match base, contract, tokenId with
  | some e, some c, some tk =>
    some { e with metadata := { e.metadata with url := getTokenUrl chainId e c tk } }
  | _, _, _ => base

end SourcesModel

namespace OpenDao

/-- A sample configuration with distinct wrapped-native, native-placeholder
and exchange addresses, as on every real chain. -/
def cfg0 : Config := ⟨"0xweth", "0xeeee", "0xexchange"⟩

/-- The empty orders table. -/
def emptyDb : OrdersDB := ⟨[]⟩

/-- A well-formed single-token erc721 sell order with one declared fee,
whose every external check passes. -/
def info721 : OrderInfo :=
  { orderParams :=
      { direction := .sell, maker := "0xmaker", taker := AddressZero,
        expiry := 100, nonce := 7, erc20Token := "0xeeee",
        erc20TokenAmount := 100, fees := [⟨"0xfr", 5⟩],
        nft := "0xnft", nftId := 1, nftAmount := none,
        kind := some "erc721-single-token" },
    metadata := { schemaHash := some "0xschema", source := none },
    ext := { hashId := "0xh721", contractKind := some .erc721,
             checkValidityOk := true, checkSignatureOk := true,
             offChainResult := .ok, generatedSchemaHash := "0xgen" } }

/-- The row the pipeline persists for `info721`:
price 105, value 105, fee basis points 476. -/
def row721 : DbOrder :=
  { id := "0xh721", kind := "opendao-erc721", side := "sell",
    fillability_status := "fillable", approval_status := "approved",
    token_set_id := "token:0xnft:1", token_set_schema_hash := "0xschema",
    maker := "0xmaker", taker := AddressZero, price := 105, value := 105,
    quantity_remaining := none, nonce := 7, source_id := some "0xexchange",
    contract := "0xnft", fee_bps := 476,
    fee_breakdown := [⟨"royalty", "0xfr", 476⟩],
    raw_data := info721.orderParams, expiration := 100 }

/-- A buy order quoting the wrapped-native payment token. -/
def buyWeth : OrderInfo :=
  { info721 with
    orderParams := { info721.orderParams with direction := .buy, erc20Token := "0xweth" }
    ext := { info721.ext with hashId := "0xhbw" } }

/-- A sell order quoting a payment token that is neither the
native placeholder nor the wrapped-native token. -/
def sellUsdc : OrderInfo :=
  { info721 with
    orderParams := { info721.orderParams with erc20Token := "0xusdc" }
    ext := { info721.ext with hashId := "0xhsu" } }

/-- A divisible (erc1155) sell order with unit quantity 2:
gross price 14, unit price 7, fee basis points 5714. -/
def info1155 : OrderInfo :=
  { orderParams :=
      { direction := .sell, maker := "0xm4", taker := AddressZero,
        expiry := 100, nonce := 11, erc20Token := "0xeeee",
        erc20TokenAmount := 10, fees := [⟨"0xfr", 4⟩],
        nft := "0xnft4", nftId := 9, nftAmount := some 2,
        kind := some "erc1155-single-token" },
    metadata := { schemaHash := some "0xschema", source := none },
    ext := { hashId := "0xh1155", contractKind := some .erc1155,
             checkValidityOk := true, checkSignatureOk := true,
             offChainResult := .ok, generatedSchemaHash := "0xgen" } }

/-- The row the pipeline persists for `info1155`. -/
def row1155 : DbOrder :=
  { id := "0xh1155", kind := "opendao-erc1155", side := "sell",
    fillability_status := "fillable", approval_status := "approved",
    token_set_id := "token:0xnft4:9", token_set_schema_hash := "0xschema",
    maker := "0xm4", taker := AddressZero, price := 7, value := 7,
    quantity_remaining := some 2, nonce := 11, source_id := some "0xexchange",
    contract := "0xnft4", fee_bps := 5714,
    fee_breakdown := [⟨"royalty", "0xfr", 5714⟩],
    raw_data := info1155.orderParams, expiration := 100 }

/-- A divisible order whose per-unit fee basis points compute to 30000:
gross price 3 over quantity 2 gives unit price 1 and fee amount 3. -/
def infoFeesHigh : OrderInfo :=
  { orderParams :=
      { direction := .sell, maker := "0xm3", taker := AddressZero,
        expiry := 100, nonce := 12, erc20Token := "0xeeee",
        erc20TokenAmount := 0, fees := [⟨"0xfr", 3⟩],
        nft := "0xnft3", nftId := 5, nftAmount := some 2,
        kind := some "erc1155-single-token" },
    metadata := { schemaHash := some "0xschema", source := none },
    ext := { hashId := "0xh3", contractKind := some .erc1155,
             checkValidityOk := true, checkSignatureOk := true,
             offChainResult := .ok, generatedSchemaHash := "0xgen" } }

/-- An order whose computed price is zero: no erc20 amount and no fees.
Every check before the pricing stage passes. -/
def infoZero : OrderInfo :=
  { orderParams :=
      { direction := .sell, maker := "0xm0", taker := AddressZero,
        expiry := 100, nonce := 13, erc20Token := "0xeeee",
        erc20TokenAmount := 0, fees := [],
        nft := "0xnft0", nftId := 2, nftAmount := none,
        kind := some "erc721-single-token" },
    metadata := { schemaHash := some "0xschema", source := none },
    ext := { hashId := "0xh0", contractKind := some .erc721,
             checkValidityOk := true, checkSignatureOk := true,
             offChainResult := .ok, generatedSchemaHash := "0xgen" } }

/-- Like `info721` but the on-chain checker reports `no-balance`. -/
def infoNoBal : OrderInfo :=
  { info721 with
    ext := { info721.ext with
             hashId := "0xhnb", offChainResult := .failedWith "no-balance" } }

/-- The row persisted for `infoNoBal`: only the fillability flag differs
from `row721`. -/
def rowNoBal : DbOrder :=
  { row721 with id := "0xhnb", fillability_status := "no-balance" }

/-- Like `info721` but the on-chain checker fails with a non-recoverable
message. -/
def infoRevert : OrderInfo :=
  { info721 with
    ext := { info721.ext with
             hashId := "0xhrv", offChainResult := .failedWith "reverted" } }

/-- A persisted erc1155 order claiming maker `0xm6` and nonce 3, at a
price unrelated to the orders tested against it. -/
def row6a : DbOrder :=
  { row721 with
    id := "0xr6a", kind := "opendao-erc1155", maker := "0xm6",
    nonce := 3, price := 999 }

/-- A table holding only `row6a`. -/
def db6a : OrdersDB := ⟨[row6a]⟩

/-- An incoming erc1155 order from maker `0xm6` with nonce 3 and a price
that matches nothing in `db6a`. -/
def info6a : OrderInfo :=
  { orderParams :=
      { direction := .sell, maker := "0xm6", taker := AddressZero,
        expiry := 100, nonce := 3, erc20Token := "0xeeee",
        erc20TokenAmount := 77, fees := [],
        nft := "0xn6", nftId := 4, nftAmount := some 1,
        kind := some "erc1155-single-token" },
    metadata := { schemaHash := some "0xschema", source := none },
    ext := { hashId := "0xh6a", contractKind := some .erc1155,
             checkValidityOk := true, checkSignatureOk := true,
             offChainResult := .ok, generatedSchemaHash := "0xgen" } }

/-- A persisted erc721 order claiming maker `0xm6`, nonce 3, contract
`0xn6` and price 50. -/
def row6b : DbOrder :=
  { row721 with
    id := "0xr6b", kind := "opendao-erc721", maker := "0xm6",
    nonce := 3, contract := "0xn6", price := 50 }

/-- A table holding only `row6b`. -/
def db6b : OrdersDB := ⟨[row6b]⟩

/-- An incoming erc721 order from maker `0xm6` with nonce 3, contract
`0xn6` and erc20 amount 50, matching `row6b` on all four columns. -/
def info6b : OrderInfo :=
  { orderParams :=
      { direction := .sell, maker := "0xm6", taker := AddressZero,
        expiry := 100, nonce := 3, erc20Token := "0xeeee",
        erc20TokenAmount := 50, fees := [],
        nft := "0xn6", nftId := 4, nftAmount := none,
        kind := some "erc721-single-token" },
    metadata := { schemaHash := some "0xschema", source := none },
    ext := { hashId := "0xh6b", contractKind := some .erc721,
             checkValidityOk := true, checkSignatureOk := true,
             offChainResult := .ok, generatedSchemaHash := "0xgen" } }

end OpenDao

namespace SourcesModel

/-- An empty registry view. -/
def emptySources : Sources := ⟨[], [], []⟩

end SourcesModel

namespace OpenDao

set_option maxHeartbeats 1000000 in
theorem handleOrder_result_inv {cfg : Config} {t : Nat} {db : OrdersDB} {info : OrderInfo}
    {r : SaveResult} {orow : Option DbOrder}
    (h : handleOrder cfg t db info = .result r orow) :
    r.id = info.ext.hashId ∧ (r.status = .success ↔ orow.isSome) ∧
    ∀ row, orow = some row →
      row.id = info.ext.hashId ∧
      fillabilityOf info.ext.offChainResult = some (row.fillability_status, row.approval_status) ∧
      unitEconomics info.orderParams = some (row.price, row.value) ∧
      row.price ≠ 0 ∧
      row.fee_bps = getFeeAmount info.orderParams * 10000 / row.price ∧
      row.fee_bps ≤ 10000 := by
  unfold handleOrder at h
  repeat first
    | split at h
    | (cases h; simp_all [Nat.not_lt])

theorem handleOrder_of_idExists {cfg : Config} {t : Nat} {db : OrdersDB} {info : OrderInfo}
    (h : orderIdExists db info.ext.hashId = true) :
    handleOrder cfg t db info = .result ⟨info.ext.hashId, .alreadyExists⟩ none := by
  unfold handleOrder
  simp [h]

theorem handleOrder_of_kindNone {cfg : Config} {t : Nat} {db : OrdersDB} {info : OrderInfo}
    (hA : orderIdExists db info.ext.hashId = false)
    (hk : info.ext.contractKind = none) :
    handleOrder cfg t db info = .result ⟨info.ext.hashId, .unknownOrderKind⟩ none := by
  unfold handleOrder
  simp [hA, hk]

theorem handleOrder_of_nonceDup {cfg : Config} {t : Nat} {db : OrdersDB} {info : OrderInfo}
    {ck : ContractKind}
    (hA : orderIdExists db info.ext.hashId = false)
    (hk : info.ext.contractKind = some ck)
    (hn : nonceQuery db ck info.orderParams = true) :
    handleOrder cfg t db info = .result ⟨info.ext.hashId, .duplicatedNonce⟩ none := by
  unfold handleOrder
  simp [hA, hk, hn]

set_option maxHeartbeats 1000000 in
theorem handleOrder_dupNonce_inv {cfg : Config} {t : Nat} {db : OrdersDB} {info : OrderInfo}
    {ck : ContractKind} {r : SaveResult} {orow : Option DbOrder}
    (hk : info.ext.contractKind = some ck)
    (h : handleOrder cfg t db info = .result r orow)
    (hs : r.status = .duplicatedNonce) :
    nonceQuery db ck info.orderParams = true := by
  unfold handleOrder at h
  repeat first
    | split at h
    | (cases h; simp_all)

set_option maxHeartbeats 1000000 in
theorem handleOrder_feesTooHigh_of_bound {cfg : Config} {t : Nat} {db : OrdersDB}
    {info : OrderInfo} {r : SaveResult} {orow : Option DbOrder} {b : Nat}
    (h : handleOrder cfg t db info = .result r orow)
    (hb : feeBpsOf info.orderParams = some b)
    (hgt : 10000 < b)
    (hs : r.status = .success ∨ r.status = .feesTooHigh) :
    r.status = .feesTooHigh ∧ orow = none := by
  unfold handleOrder at h
  repeat first
    | split at h
    | (cases h; simp_all [feeBpsOf, Nat.not_lt])
    | (obtain ⟨h1, h2⟩ := h; subst h1; subst h2; simp_all [feeBpsOf, Nat.not_lt])
    | simp_all [feeBpsOf, Nat.not_lt]

set_option maxHeartbeats 1000000 in
theorem handleOrder_recoverable_not_notFillable {cfg : Config} {t : Nat} {db : OrdersDB}
    {info : OrderInfo} {fa : String × String} {r : SaveResult} {orow : Option DbOrder}
    (hf : fillabilityOf info.ext.offChainResult = some fa)
    (h : handleOrder cfg t db info = .result r orow) :
    r.status ≠ .notFillable := by
  unfold handleOrder at h
  repeat first
    | split at h
    | (cases h; simp_all)

theorem handleOrder_notFillable_eq {cfg : Config} {t : Nat} {db : OrdersDB} {info : OrderInfo}
    {ck : ContractKind}
    (hA : orderIdExists db info.ext.hashId = false)
    (hk : info.ext.contractKind = some ck)
    (hn : nonceQuery db ck info.orderParams = false)
    (ht : decide (info.orderParams.expiry ≤ t) = false)
    (hp1 : (info.orderParams.direction == .buy &&
            info.orderParams.erc20Token != cfg.wethAddress) = false)
    (hp2 : (info.orderParams.direction == .buy &&
            info.orderParams.erc20Token != cfg.ethAddress) = false)
    (htk : (info.orderParams.taker != AddressZero) = false)
    (hv : info.ext.checkValidityOk = true)
    (hsg : info.ext.checkSignatureOk = true)
    (hf : fillabilityOf info.ext.offChainResult = none) :
    handleOrder cfg t db info = .result ⟨info.ext.hashId, .notFillable⟩ none := by
  unfold handleOrder
  simp [hA, hk, hn, ht, hp1, hp2, htk, hv, hsg, hf]

theorem handleOrder_dropped_of_zero_price {cfg : Config} {t : Nat} {db : OrdersDB}
    {info : OrderInfo} {ck : ContractKind} {fs as ts : String} {v : Nat}
    (hA : orderIdExists db info.ext.hashId = false)
    (hk : info.ext.contractKind = some ck)
    (hn : nonceQuery db ck info.orderParams = false)
    (ht : decide (info.orderParams.expiry ≤ t) = false)
    (hp1 : (info.orderParams.direction == .buy &&
            info.orderParams.erc20Token != cfg.wethAddress) = false)
    (hp2 : (info.orderParams.direction == .buy &&
            info.orderParams.erc20Token != cfg.ethAddress) = false)
    (htk : (info.orderParams.taker != AddressZero) = false)
    (hv : info.ext.checkValidityOk = true)
    (hsg : info.ext.checkSignatureOk = true)
    (hf : fillabilityOf info.ext.offChainResult = some (fs, as))
    (hts : tokenSetIdOf info.orderParams = some ts)
    (hu : unitEconomics info.orderParams = some (0, v)) :
    handleOrder cfg t db info = .dropped := by
  unfold handleOrder
  simp [hA, hk, hn, ht, hp1, hp2, htk, hv, hsg, hf, hts, hu]

theorem orderIdExists_append_false {db : OrdersDB} {extra : List DbOrder} {id : String}
    (h : orderIdExists ⟨db.rows ++ extra⟩ id = false) :
    orderIdExists db id = false := by
  unfold orderIdExists at h ⊢
  rw [List.any_append] at h
  exact (Bool.or_eq_false_iff.mp h).1

theorem nonceQuery_append_false {db : OrdersDB} {extra : List DbOrder} {ck : ContractKind}
    {o : BaseOrder}
    (h : nonceQuery ⟨db.rows ++ extra⟩ ck o = false) :
    nonceQuery db ck o = false := by
  cases ck with
  | erc721 =>
    simp only [nonceQuery, nonceExistsErc721] at h ⊢
    rw [List.any_append] at h
    exact (Bool.or_eq_false_iff.mp h).1
  | erc1155 =>
    simp only [nonceQuery, nonceExistsErc1155] at h ⊢
    rw [List.any_append] at h
    exact (Bool.or_eq_false_iff.mp h).1

theorem handleOrder_accepted_append {cfg : Config} {t : Nat} {db : OrdersDB}
    {extra : List DbOrder} {info : OrderInfo} {r : SaveResult} {row : DbOrder}
    (h : handleOrder cfg t ⟨db.rows ++ extra⟩ info = .result r (some row)) :
    handleOrder cfg t db info = .result r (some row) := by
  have hA2 : orderIdExists ⟨db.rows ++ extra⟩ info.ext.hashId = false := by
    cases hx : orderIdExists ⟨db.rows ++ extra⟩ info.ext.hashId
    · rfl
    · rw [handleOrder_of_idExists hx] at h
      simp at h
  have hA1 : orderIdExists db info.ext.hashId = false := orderIdExists_append_false hA2
  cases hk : info.ext.contractKind with
  | none =>
    rw [handleOrder_of_kindNone hA2 hk] at h
    simp at h
  | some ck =>
    have hn2 : nonceQuery ⟨db.rows ++ extra⟩ ck info.orderParams = false := by
      cases hx : nonceQuery ⟨db.rows ++ extra⟩ ck info.orderParams
      · rfl
      · rw [handleOrder_of_nonceDup hA2 hk hx] at h
        simp at h
    have hn1 : nonceQuery db ck info.orderParams = false := nonceQuery_append_false hn2
    unfold handleOrder at h ⊢
    simp only [hA1, hA2, hk, hn1, hn2] at h ⊢
    exact h

end OpenDao

namespace OpenDao

/-- Folding the batch handler from any accumulator prepends that
accumulator to the pushes of the batch. -/
theorem processOrders_foldl (cfg : Config) (t : Nat) (db : OrdersDB) (relay : Bool)
    (infos : List OrderInfo) (acc : BatchAcc) :
    infos.foldl (handleInto cfg t db relay) acc =
      ⟨acc.results ++ (processOrders cfg t db relay infos).results,
       acc.orderValues ++ (processOrders cfg t db relay infos).orderValues,
       acc.arweaveIds ++ (processOrders cfg t db relay infos).arweaveIds⟩ := by
  induction infos generalizing acc with
  | nil => simp [processOrders]
  | cons i is ih =>
    have h1 := ih (handleInto cfg t db relay acc i)
    have h2 := ih (handleInto cfg t db relay ⟨[], [], []⟩ i)
    simp only [processOrders, List.foldl_cons] at h1 h2 ⊢
    rw [h1, h2]
    cases hi : handleOrder cfg t db i <;>
      simp [handleInto, hi, List.append_assoc]

/-- Head decomposition of the batch fold. -/
theorem processOrders_cons (cfg : Config) (t : Nat) (db : OrdersDB) (relay : Bool)
    (i : OrderInfo) (is : List OrderInfo) :
    processOrders cfg t db relay (i :: is) =
      ⟨(handleInto cfg t db relay ⟨[], [], []⟩ i).results ++
        (processOrders cfg t db relay is).results,
       (handleInto cfg t db relay ⟨[], [], []⟩ i).orderValues ++
        (processOrders cfg t db relay is).orderValues,
       (handleInto cfg t db relay ⟨[], [], []⟩ i).arweaveIds ++
        (processOrders cfg t db relay is).arweaveIds⟩ := by
  have h := processOrders_foldl cfg t db relay is (handleInto cfg t db relay ⟨[], [], []⟩ i)
  simp only [processOrders, List.foldl_cons]
  exact h

/-- A dropped order pushes nothing. -/
theorem handleInto_dropped {cfg : Config} {t : Nat} {db : OrdersDB} {relay : Bool}
    {acc : BatchAcc} {i : OrderInfo}
    (h : handleOrder cfg t db i = .dropped) :
    handleInto cfg t db relay acc i = acc := by
  simp [handleInto, h]

/-- A batch with one dropped order in the middle accumulates exactly as
the batch without it. -/
theorem processOrders_dropped_middle {cfg : Config} {t : Nat} {db : OrdersDB} {relay : Bool}
    {xs zs : List OrderInfo} {y : OrderInfo}
    (h : handleOrder cfg t db y = .dropped) :
    processOrders cfg t db relay (xs ++ y :: zs) = processOrders cfg t db relay (xs ++ zs) := by
  unfold processOrders
  rw [List.foldl_append, List.foldl_append, List.foldl_cons, handleInto_dropped h]

/-- When no order of the batch is dropped, there is exactly one result
entry per input order. -/
theorem processOrders_length {cfg : Config} {t : Nat} {db : OrdersDB} {relay : Bool}
    {infos : List OrderInfo}
    (h : ∀ i ∈ infos, handleOrder cfg t db i ≠ .dropped) :
    (processOrders cfg t db relay infos).results.length = infos.length := by
  induction infos with
  | nil => rfl
  | cons i is ih =>
    rw [processOrders_cons]
    have hrest := ih (fun j hj => h j (List.mem_cons_of_mem i hj))
    cases hx : handleOrder cfg t db i with
    | dropped => exact absurd hx (h i (List.mem_cons_self i is))
    | result r orow => simp [handleInto, hx, hrest]

/-- The row of an accepted order of the batch is among the pushed rows. -/
theorem processOrders_row_mem {cfg : Config} {t : Nat} {db : OrdersDB} {relay : Bool}
    {infos : List OrderInfo} {info : OrderInfo} {r : SaveResult} {row : DbOrder}
    (hmem : info ∈ infos) (h : handleOrder cfg t db info = .result r (some row)) :
    row ∈ (processOrders cfg t db relay infos).orderValues := by
  induction infos with
  | nil => cases hmem
  | cons i is ih =>
    rw [processOrders_cons]
    rcases List.mem_cons.mp hmem with rfl | hmem2
    · simp [handleInto, h]
    · simp [ih hmem2]

/-- When every order of the batch contributes no row, no rows accumulate. -/
theorem processOrders_orderValues_nil {cfg : Config} {t : Nat} {db : OrdersDB} {relay : Bool}
    {infos : List OrderInfo}
    (h : ∀ i ∈ infos, rowOf (handleOrder cfg t db i) = none) :
    (processOrders cfg t db relay infos).orderValues = [] := by
  induction infos with
  | nil => rfl
  | cons i is ih =>
    rw [processOrders_cons]
    have hi := h i (List.mem_cons_self i is)
    have hrest := ih (fun j hj => h j (List.mem_cons_of_mem i hj))
    cases hx : handleOrder cfg t db i with
    | dropped => simp [handleInto, hx, hrest]
    | result r orow =>
      rw [hx] at hi
      cases orow with
      | some row => simp [rowOf] at hi
      | none => simp [handleInto, hx, hrest]

/-- When the batch pushed no rows, no result of the batch is a success. -/
theorem processOrders_no_success {cfg : Config} {t : Nat} {db : OrdersDB} {relay : Bool}
    {infos : List OrderInfo}
    (h : (processOrders cfg t db relay infos).orderValues = []) :
    ∀ r2 ∈ (processOrders cfg t db relay infos).results, r2.status ≠ .success := by
  induction infos with
  | nil => simp [processOrders]
  | cons i is ih =>
    rw [processOrders_cons] at h ⊢
    have h2 := List.append_eq_nil.mp h
    intro r2 hr2
    rcases List.mem_append.mp hr2 with hl | hr
    · cases hx : handleOrder cfg t db i with
      | dropped => simp [handleInto, hx] at hl
      | result r orow =>
        simp [handleInto, hx] at hl
        subst hl
        cases orow with
        | some row => simp [handleInto, hx] at h2
        | none =>
          have := (handleOrder_result_inv hx).2.1
          simp at this
          exact this
    · exact ih h2.2 r2 hr

/-- The bulk insert only appends rows. -/
theorem insertMany_rows_append (db : OrdersDB) (rows : List DbOrder) :
    ∃ extra, (insertMany db rows).rows = db.rows ++ extra := by
  induction rows generalizing db with
  | nil => exact ⟨[], by simp [insertMany]⟩
  | cons r rs ih =>
    simp only [insertMany, List.foldl_cons] at ih ⊢
    cases hx : orderIdExists db r.id with
    | true =>
      rw [show insertRow db r = db by simp [insertRow, hx]]
      exact ih db
    | false =>
      obtain ⟨e, he⟩ := ih ⟨db.rows ++ [r]⟩
      refine ⟨[r] ++ e, ?_⟩
      rw [show insertRow db r = (⟨db.rows ++ [r]⟩ : OrdersDB) by simp [insertRow, hx]]
      rw [he]
      simp

/-- A known id stays known after a single conflict-ignoring insert. -/
theorem orderIdExists_insertRow_mono {db : OrdersDB} {row : DbOrder} {id : String}
    (h : orderIdExists db id = true) :
    orderIdExists (insertRow db row) id = true := by
  unfold insertRow
  split
  · exact h
  · unfold orderIdExists at h ⊢
    simp [List.any_append, h]

/-- After inserting a row, its id is known. -/
theorem orderIdExists_insertRow_self (db : OrdersDB) (row : DbOrder) :
    orderIdExists (insertRow db row) row.id = true := by
  unfold insertRow
  split
  · assumption
  · unfold orderIdExists
    simp [List.any_append]

/-- A known id stays known after the bulk insert. -/
theorem orderIdExists_insertMany_mono {db : OrdersDB} {rows : List DbOrder} {id : String}
    (h : orderIdExists db id = true) :
    orderIdExists (insertMany db rows) id = true := by
  induction rows generalizing db with
  | nil => exact h
  | cons r rs ih =>
    simp only [insertMany, List.foldl_cons]
    exact ih (orderIdExists_insertRow_mono h)

/-- Every row handed to the bulk insert has a known id afterwards. -/
theorem insertMany_mem_id {db : OrdersDB} {rows : List DbOrder} {row : DbOrder}
    (h : row ∈ rows) :
    orderIdExists (insertMany db rows) row.id = true := by
  induction rows generalizing db with
  | nil => cases h
  | cons r rs ih =>
    simp only [insertMany, List.foldl_cons]
    rcases List.mem_cons.mp h with rfl | h2
    · exact orderIdExists_insertMany_mono (orderIdExists_insertRow_self db row)
    · exact ih h2

/-- A single conflict-ignoring insert grows the table by at most one row. -/
theorem insertRow_length (db : OrdersDB) (row : DbOrder) :
    (insertRow db row).rows.length ≤ db.rows.length + 1 := by
  unfold insertRow
  split <;> simp

/-- The bulk insert never updates an already-persisted row: lookups of
known ids are unchanged. -/
theorem lookupById_insertMany {db : OrdersDB} {rows : List DbOrder} {id : String}
    {r : DbOrder}
    (h : lookupById db id = some r) :
    lookupById (insertMany db rows) id = some r := by
  obtain ⟨extra, he⟩ := insertMany_rows_append db rows
  unfold lookupById at h ⊢
  rw [he, List.find?_append, h]
  rfl

end OpenDao

namespace OpenDao

/-- The result list of `save` is exactly what the batch accumulated. -/
theorem save_results (cfg : Config) (t : Nat) (infos : List OrderInfo) (relay : Bool)
    (db : OrdersDB) :
    (save cfg t infos relay db).results = (processOrders cfg t db relay infos).results := by
  unfold save persistAndNotify
  split <;> rfl

/-- With no success result, no new-order event is built. -/
theorem newOrderEvents_eq_nil {results : List SaveResult}
    (h : ∀ r ∈ results, r.status ≠ .success) :
    newOrderEvents results = [] := by
  unfold newOrderEvents
  rw [List.filter_eq_nil_iff.mpr]
  · rfl
  · intro r hr
    simpa using h r hr

end OpenDao

namespace OpenDao

/-- C1: the specification requires sell-side orders quoting a payment
token other than the native placeholder to be rejected with
`unsupported-payment-token`, and buy-side orders quoting the
wrapped-native token to pass the payment checks.  The code tests the BUY
direction in both payment checks (the second check is commented as the
sell-side check but tests BUY): a sell order quoting an arbitrary erc20
token passes every payment check and reaches `success`, while a buy
order quoting the wrapped-native token is rejected with
`unsupported-payment-token`. -/
theorem c1_payment_token_checks_eval :
    statusOf (handleOrder cfg0 5 emptyDb sellUsdc) = some .success ∧
    statusOf (handleOrder cfg0 5 emptyDb buyWeth) = some .unsupportedPaymentToken := by
  constructor <;> decide

/-- C3: every persisted row satisfies `fee_bps ≤ 10000` (the lower bound
is inherent to the natural-number arithmetic), and every order that
reaches the pricing stage (its outcome is `success` or `fees-too-high`)
with computed fee basis points above 10000 is reported as
`fees-too-high` with no row persisted. -/
theorem c3_fee_bps_bound (cfg : Config) (t : Nat) (db : OrdersDB) (info : OrderInfo) :
    (∀ r row, handleOrder cfg t db info = .result r (some row) →
      row.fee_bps ≤ 10000) ∧
    (∀ r orow b, handleOrder cfg t db info = .result r orow →
      feeBpsOf info.orderParams = some b → 10000 < b →
      (r.status = .success ∨ r.status = .feesTooHigh) →
      r.status = .feesTooHigh ∧ orow = none) := by
  constructor
  · intro r row h
    exact ((handleOrder_result_inv h).2.2 row rfl).2.2.2.2.2
  · intro r orow b h hb hgt hs
    exact handleOrder_feesTooHigh_of_bound h hb hgt hs

/-- C3 witness: the accepted order `info721` is persisted with fee basis
points 476 ≤ 10000, and the divisible order `infoFeesHigh`, whose
computed fee basis points are 30000, is reported `fees-too-high` with no
row. -/
theorem c3_fee_bps_bound_witness :
    row721.fee_bps ≤ 10000 ∧
    ((⟨"0xh3", .feesTooHigh⟩ : SaveResult).status = .feesTooHigh ∧
      (none : Option DbOrder) = none) := by
  constructor
  · exact (c3_fee_bps_bound cfg0 5 emptyDb info721).1 ⟨"0xh721", .success⟩ row721 (by decide)
  · exact (c3_fee_bps_bound cfg0 5 emptyDb infoFeesHigh).2 ⟨"0xh3", .feesTooHigh⟩ none 30000
      (by decide) (by decide) (by decide) (Or.inr rfl)

/-- C5 counterexample: the claim says an order whose computed price is
zero is rejected with a terminal status instead of a division error.  At
the concrete zero-price order `infoZero` (every earlier check passes),
the code instead hits the BigNumber division by zero, the per-order
catch-all drops the order, and the batch returns no outcome entry for it
and writes nothing. -/
theorem c5_zero_price_counterexample :
    handleOrder cfg0 5 emptyDb infoZero = .dropped ∧
    (save cfg0 5 [infoZero] false emptyDb).results = [] ∧
    (save cfg0 5 [infoZero] false emptyDb).db = emptyDb := by
  refine ⟨by decide, by decide, by decide⟩

/-- C5 amended: an order whose computed unit price is zero is not
rejected with a terminal status; the division error is caught by the
per-order catch-all, so the order is dropped: the batch call returns
normally with no outcome entry for the order and no persisted row. -/
theorem c5_zero_price_dropped (cfg : Config) (t : Nat) (db : OrdersDB) (info : OrderInfo)
    (ck : ContractKind) (fs as ts : String) (v : Nat)
    (hA : orderIdExists db info.ext.hashId = false)
    (hk : info.ext.contractKind = some ck)
    (hn : nonceQuery db ck info.orderParams = false)
    (ht : decide (info.orderParams.expiry ≤ t) = false)
    (hp1 : (info.orderParams.direction == .buy &&
            info.orderParams.erc20Token != cfg.wethAddress) = false)
    (hp2 : (info.orderParams.direction == .buy &&
            info.orderParams.erc20Token != cfg.ethAddress) = false)
    (htk : (info.orderParams.taker != AddressZero) = false)
    (hv : info.ext.checkValidityOk = true)
    (hsg : info.ext.checkSignatureOk = true)
    (hf : fillabilityOf info.ext.offChainResult = some (fs, as))
    (hts : tokenSetIdOf info.orderParams = some ts)
    (hu : unitEconomics info.orderParams = some (0, v)) :
    handleOrder cfg t db info = .dropped ∧
    ∀ relay, (save cfg t [info] relay db).results = [] ∧
      (save cfg t [info] relay db).db = db := by
  have hd := handleOrder_dropped_of_zero_price hA hk hn ht hp1 hp2 htk hv hsg hf hts hu
  refine ⟨hd, ?_⟩
  intro relay
  have hacc : processOrders cfg t db relay [info] = ⟨[], [], []⟩ := by
    simp [processOrders, handleInto, hd]
  constructor
  · rw [save_results, hacc]
  · unfold save
    rw [hacc]
    rfl

/-- C5 amended witness: the amended behaviour at the concrete zero-price
order `infoZero`. -/
theorem c5_zero_price_dropped_witness :
    handleOrder cfg0 5 emptyDb infoZero = .dropped ∧
    ((save cfg0 5 [infoZero] false emptyDb).results = [] ∧
      (save cfg0 5 [infoZero] false emptyDb).db = emptyDb) := by
  have h := c5_zero_price_dropped cfg0 5 emptyDb infoZero .erc721 "fillable" "approved"
    "token:0xnft0:2" 0 (by decide) rfl (by decide) (by decide) (by decide) (by decide)
    (by decide) rfl rfl (by decide) (by decide) (by decide)
  exact ⟨h.1, h.2 false⟩

/-- C6: with the existence check passed, a divisible (erc1155) order is
reported `duplicated-nonce` exactly when a persisted `opendao-erc1155`
order with the same maker and nonce exists, price playing no role, and a
non-divisible (erc721) order exactly when a persisted `opendao-erc721`
order with the same maker, nonce, contract and price exists. -/
theorem c6_nonce_uniqueness (cfg : Config) (t : Nat) (db : OrdersDB) (info : OrderInfo)
    (hA : orderIdExists db info.ext.hashId = false) :
    (info.ext.contractKind = some .erc1155 →
      (statusOf (handleOrder cfg t db info) = some .duplicatedNonce ↔
        nonceExistsErc1155 db info.orderParams.maker info.orderParams.nonce = true)) ∧
    (info.ext.contractKind = some .erc721 →
      (statusOf (handleOrder cfg t db info) = some .duplicatedNonce ↔
        nonceExistsErc721 db info.orderParams.maker info.orderParams.nonce
          info.orderParams.nft info.orderParams.erc20TokenAmount = true)) := by
  constructor
  · intro hk
    constructor
    · intro hst
      cases hh : handleOrder cfg t db info with
      | dropped => rw [hh] at hst; simp [statusOf] at hst
      | result r orow =>
        have hq := handleOrder_dupNonce_inv hk hh (by rw [hh] at hst; simpa [statusOf] using hst)
        simpa [nonceQuery] using hq
    · intro hq
      rw [handleOrder_of_nonceDup hA hk (by simpa [nonceQuery] using hq)]
      rfl
  · intro hk
    constructor
    · intro hst
      cases hh : handleOrder cfg t db info with
      | dropped => rw [hh] at hst; simp [statusOf] at hst
      | result r orow =>
        have hq := handleOrder_dupNonce_inv hk hh (by rw [hh] at hst; simpa [statusOf] using hst)
        simpa [nonceQuery] using hq
    · intro hq
      rw [handleOrder_of_nonceDup hA hk (by simpa [nonceQuery] using hq)]
      rfl

/-- C6 witness: against `db6a`, the divisible order `info6a` (same maker
and nonce as the persisted row, unrelated price) is `duplicated-nonce`;
against `db6b`, the non-divisible order `info6b` matching maker, nonce,
contract and price is `duplicated-nonce`. -/
theorem c6_nonce_uniqueness_witness :
    statusOf (handleOrder cfg0 5 db6a info6a) = some .duplicatedNonce ∧
    statusOf (handleOrder cfg0 5 db6b info6b) = some .duplicatedNonce := by
  constructor
  · exact ((c6_nonce_uniqueness cfg0 5 db6a info6a (by decide)).1 rfl).mpr (by decide)
  · exact ((c6_nonce_uniqueness cfg0 5 db6b info6b (by decide)).2 rfl).mpr (by decide)

end OpenDao

namespace OpenDao

/-- C4: every persisted row carries the exact integer unit economics:
with `fee` the sum of declared fee amounts and `p = erc20TokenAmount +
fee`, a non-divisible order is persisted with `price = p` and
`value = p - fee` on the buy side (`p` on the sell side), and a
divisible (erc1155-style) order with unit quantity `q` is persisted with
`price = p / q` and the value likewise divided by `q`, in floor
division. -/
theorem c4_unit_pricing (cfg : Config) (t : Nat) (db : OrdersDB) (info : OrderInfo)
    (r : SaveResult) (row : DbOrder)
    (h : handleOrder cfg t db info = .result r (some row)) :
    (kindIsErc1155 info.orderParams = false →
      row.price = info.orderParams.erc20TokenAmount + getFeeAmount info.orderParams ∧
      row.value = (if info.orderParams.direction = .buy
        then info.orderParams.erc20TokenAmount + getFeeAmount info.orderParams
              - getFeeAmount info.orderParams
        else info.orderParams.erc20TokenAmount + getFeeAmount info.orderParams)) ∧
    (∀ q, kindIsErc1155 info.orderParams = true → info.orderParams.nftAmount = some q →
      row.price = (info.orderParams.erc20TokenAmount + getFeeAmount info.orderParams) / q ∧
      row.value = (if info.orderParams.direction = .buy
        then info.orderParams.erc20TokenAmount + getFeeAmount info.orderParams
              - getFeeAmount info.orderParams
        else info.orderParams.erc20TokenAmount + getFeeAmount info.orderParams) / q) := by
  have hu := ((handleOrder_result_inv h).2.2 row rfl).2.2.1
  constructor
  · intro hk
    rw [unitEconomics, hk] at hu
    simp at hu
    simp only [Nat.add_sub_cancel]
    exact ⟨hu.1.symm, hu.2.symm⟩
  · intro q hk hq
    rw [unitEconomics, hk, hq] at hu
    simp at hu
    obtain ⟨hq0, hu1, hu2⟩ := hu
    simp only [Nat.add_sub_cancel]
    exact ⟨hu1.symm, hu2.symm⟩

end OpenDao

namespace OpenDao

/-- C4 witness: the divisible order `info1155` (erc20 amount 10, fee 4,
quantity 2) is persisted with unit price 7 and unit value 7. -/
theorem c4_unit_pricing_witness :
    row1155.price
        = (info1155.orderParams.erc20TokenAmount + getFeeAmount info1155.orderParams) / 2 ∧
    row1155.value = (if info1155.orderParams.direction = .buy
      then info1155.orderParams.erc20TokenAmount + getFeeAmount info1155.orderParams
            - getFeeAmount info1155.orderParams
      else info1155.orderParams.erc20TokenAmount + getFeeAmount info1155.orderParams) / 2 :=
  (c4_unit_pricing cfg0 5 emptyDb info1155 ⟨"0xh1155", .success⟩ row1155 (by decide)).2 2
    (by decide) rfl

/-- C7: past the signature stage, the three recoverable checker failures
map to the persisted flags (`no-balance-no-approval` to no-balance and
no-approval, `no-approval` to no-approval with fillable balance,
`no-balance` to no-balance with approval), an order whose checker result
is recoverable is never reported `not-fillable`, and any other checker
failure is terminal `not-fillable` with no row persisted. -/
theorem c7_fillability_mapping (cfg : Config) (t : Nat) (db : OrdersDB) (info : OrderInfo)
    (ck : ContractKind)
    (hA : orderIdExists db info.ext.hashId = false)
    (hk : info.ext.contractKind = some ck)
    (hn : nonceQuery db ck info.orderParams = false)
    (ht : decide (info.orderParams.expiry ≤ t) = false)
    (hp1 : (info.orderParams.direction == .buy &&
            info.orderParams.erc20Token != cfg.wethAddress) = false)
    (hp2 : (info.orderParams.direction == .buy &&
            info.orderParams.erc20Token != cfg.ethAddress) = false)
    (htk : (info.orderParams.taker != AddressZero) = false)
    (hv : info.ext.checkValidityOk = true)
    (hsg : info.ext.checkSignatureOk = true) :
    (∀ msg r row, info.ext.offChainResult = .failedWith msg →
      handleOrder cfg t db info = .result r (some row) →
      ((msg = "no-balance-no-approval" →
          row.fillability_status = "no-balance" ∧ row.approval_status = "no-approval") ∧
       (msg = "no-approval" →
          row.fillability_status = "fillable" ∧ row.approval_status = "no-approval") ∧
       (msg = "no-balance" →
          row.fillability_status = "no-balance" ∧ row.approval_status = "approved"))) ∧
    (∀ fa r orow, fillabilityOf info.ext.offChainResult = some fa →
      handleOrder cfg t db info = .result r orow → r.status ≠ .notFillable) ∧
    (∀ msg, info.ext.offChainResult = .failedWith msg →
      msg ≠ "no-balance-no-approval" → msg ≠ "no-approval" → msg ≠ "no-balance" →
      handleOrder cfg t db info = .result ⟨info.ext.hashId, .notFillable⟩ none) := by
  refine ⟨?_, ?_, ?_⟩
  · intro msg r row hmsg h
    have hfill := ((handleOrder_result_inv h).2.2 row rfl).2.1
    rw [hmsg] at hfill
    refine ⟨?_, ?_, ?_⟩ <;> intro hm <;> subst hm
    · rw [show fillabilityOf (OffChainResult.failedWith "no-balance-no-approval")
          = some ("no-balance", "no-approval") from by decide] at hfill
      have := Option.some.inj hfill
      exact ⟨(congrArg Prod.fst this).symm, (congrArg Prod.snd this).symm⟩
    · rw [show fillabilityOf (OffChainResult.failedWith "no-approval")
          = some ("fillable", "no-approval") from by decide] at hfill
      have := Option.some.inj hfill
      exact ⟨(congrArg Prod.fst this).symm, (congrArg Prod.snd this).symm⟩
    · rw [show fillabilityOf (OffChainResult.failedWith "no-balance")
          = some ("no-balance", "approved") from by decide] at hfill
      have := Option.some.inj hfill
      exact ⟨(congrArg Prod.fst this).symm, (congrArg Prod.snd this).symm⟩
  · intro fa r orow hf h
    exact handleOrder_recoverable_not_notFillable hf h
  · intro msg hmsg h1 h2 h3
    apply handleOrder_notFillable_eq hA hk hn ht hp1 hp2 htk hv hsg
    rw [hmsg]
    unfold fillabilityOf
    simp [h1, h2, h3]

/-- C7 witness: with the checker reporting `no-balance`, the order
`infoNoBal` persists with fillability `no-balance` and approval
`approved`; with the checker failing with `reverted`, the order
`infoRevert` is terminal `not-fillable` with no row. -/
theorem c7_fillability_mapping_witness :
    (rowNoBal.fillability_status = "no-balance" ∧ rowNoBal.approval_status = "approved") ∧
    handleOrder cfg0 5 emptyDb infoRevert = .result ⟨"0xhrv", .notFillable⟩ none := by
  constructor
  · exact ((c7_fillability_mapping cfg0 5 emptyDb infoNoBal .erc721 (by decide) rfl
      (by decide) (by decide) (by decide) (by decide) (by decide) rfl rfl).1 "no-balance"
      ⟨"0xhnb", .success⟩ rowNoBal rfl (by decide)).2.2 rfl
  · exact (c7_fillability_mapping cfg0 5 emptyDb infoRevert .erc721 (by decide) rfl
      (by decide) (by decide) (by decide) (by decide) (by decide) rfl rfl).2.2 "reverted"
      rfl (by decide) (by decide) (by decide)

end OpenDao

namespace OpenDao

/-- C8: when exactly one order of a batch raises an unexpected error
(is dropped by the catch-all) and every other order reports an outcome,
the batch returns exactly N - 1 outcome entries, and the results,
persisted state and events are identical to those of the batch without
the failing order. -/
theorem c8_batch_isolation (cfg : Config) (t : Nat) (db : OrdersDB) (relay : Bool)
    (xs zs : List OrderInfo) (y : OrderInfo)
    (hy : handleOrder cfg t db y = .dropped)
    (hothers : ∀ i ∈ xs ++ zs, handleOrder cfg t db i ≠ .dropped) :
    (save cfg t (xs ++ y :: zs) relay db).results.length = (xs ++ y :: zs).length - 1 ∧
    save cfg t (xs ++ y :: zs) relay db = save cfg t (xs ++ zs) relay db := by
  have hp : processOrders cfg t db relay (xs ++ y :: zs)
      = processOrders cfg t db relay (xs ++ zs) := processOrders_dropped_middle hy
  have heq : save cfg t (xs ++ y :: zs) relay db = save cfg t (xs ++ zs) relay db := by
    unfold save
    rw [hp]
  refine ⟨?_, heq⟩
  rw [heq, save_results, processOrders_length hothers]
  simp

/-- C8 witness: in the two-order batch of the valid `info721` and the
throwing `infoZero`, exactly one outcome is returned and the batch
output equals that of the batch without `infoZero`. -/
theorem c8_batch_isolation_witness :
    (save cfg0 5 ([info721] ++ infoZero :: []) false emptyDb).results.length
        = ([info721] ++ infoZero :: []).length - 1 ∧
    save cfg0 5 ([info721] ++ infoZero :: []) false emptyDb
        = save cfg0 5 ([info721] ++ []) false emptyDb :=
  c8_batch_isolation cfg0 5 emptyDb false [info721] [] infoZero (by decide) (by decide)

/-- C9: the enqueued events are exactly one per success result, keyed by
the context `new-order-<identity>` with trigger kind `new-order`, and in
the action trace every enqueue is strictly preceded by the bulk insert. -/
theorem c9_event_emission (cfg : Config) (t : Nat) (infos : List OrderInfo) (relay : Bool)
    (db : OrdersDB) :
    (save cfg t infos relay db).events = newOrderEvents (save cfg t infos relay db).results ∧
    (∀ e ∈ (save cfg t infos relay db).events,
      e.context = "new-order-" ++ e.id ∧ e.triggerKind = "new-order") ∧
    (∀ i e, (save cfg t infos relay db).trace.get? i = some (.enqueueEvent e) →
      ∃ j rows, j < i ∧ (save cfg t infos relay db).trace.get? j
          = some (.insertOrders rows)) := by
  have hev : ∀ e ∈ newOrderEvents (processOrders cfg t db relay infos).results,
      e.context = "new-order-" ++ e.id ∧ e.triggerKind = "new-order" := by
    intro e he
    unfold newOrderEvents at he
    obtain ⟨r2, hr2, hre⟩ := List.mem_map.mp he
    subst hre
    exact ⟨rfl, rfl⟩
  rw [save_results]
  unfold save persistAndNotify
  split
  case isTrue hemp =>
    have hnil : (processOrders cfg t db relay infos).orderValues = [] :=
      List.isEmpty_iff.mp hemp
    refine ⟨?_, ?_, ?_⟩
    · exact (newOrderEvents_eq_nil (processOrders_no_success hnil)).symm
    · intro e he
      simp at he
    · intro i e hi
      simp at hi
  case isFalse hemp =>
    refine ⟨rfl, hev, ?_⟩
    intro i e hi
    cases i with
    | zero => simp at hi
    | succ n => exact ⟨0, (processOrders cfg t db relay infos).orderValues, Nat.succ_pos n, rfl⟩

/-- C9 witness: for the single-order batch of `info721`, the events are
the new-order events of the results, the enqueued event is keyed
`new-order-0xh721`, and the enqueue at trace index 1 is preceded by the
bulk insert. -/
theorem c9_event_emission_witness :
    (save cfg0 5 [info721] false emptyDb).events
        = newOrderEvents (save cfg0 5 [info721] false emptyDb).results ∧
    ((⟨"new-order-0xh721", "0xh721", "new-order"⟩ : OrderEvent).context
        = "new-order-" ++ (⟨"new-order-0xh721", "0xh721", "new-order"⟩ : OrderEvent).id ∧
      (⟨"new-order-0xh721", "0xh721", "new-order"⟩ : OrderEvent).triggerKind = "new-order") ∧
    (∃ j rows, j < 1 ∧ (save cfg0 5 [info721] false emptyDb).trace.get? j
        = some (.insertOrders rows)) := by
  refine ⟨(c9_event_emission cfg0 5 [info721] false emptyDb).1, ?_, ?_⟩
  · exact (c9_event_emission cfg0 5 [info721] false emptyDb).2.1
      ⟨"new-order-0xh721", "0xh721", "new-order"⟩ (by decide)
  · exact (c9_event_emission cfg0 5 [info721] false emptyDb).2.2 1
      ⟨"new-order-0xh721", "0xh721", "new-order"⟩ (by decide)

end OpenDao

namespace SourcesModel

/-- C10: lookup at the public interface is total with a default
fallback: `get` returns the default source entity (id 0, zero address)
for every id absent from the loaded map, and `getByName` and
`getByAddress` return the default entity for unknown names and addresses
whenever their returnDefault flag is true. -/
theorem c10_sources_default_fallback :
    (∀ (s : Sources) (id : Nat), s.sources.lookup id = none →
      Sources.get s id = getDefaultSource) ∧
    getDefaultSource.id = 0 ∧ getDefaultSource.address = AddressZero ∧
    (∀ (s : Sources) (name : String), s.sourcesByNames.lookup name.toLower = none →
      Sources.getByName s name true = some getDefaultSource) ∧
    (∀ (s : Sources) (chainId : Nat) (address : String) (contract tokenId : Option String),
      s.sourcesByAddress.lookup address.toLower = none →
      ∃ e, Sources.getByAddress s chainId address contract tokenId true = some e ∧
        e.id = 0 ∧ e.address = AddressZero) := by
  refine ⟨?_, rfl, rfl, ?_, ?_⟩
  · intro s id h
    simp [Sources.get, h]
  · intro s name h
    simp [Sources.getByName, h]
  · intro s chainId address contract tokenId h
    unfold Sources.getByAddress
    rw [h]
    cases contract with
    | none => exact ⟨getDefaultSource, rfl, rfl, rfl⟩
    | some c =>
      cases tokenId with
      | none => exact ⟨getDefaultSource, rfl, rfl, rfl⟩
      | some tk =>
        exact ⟨_, rfl, rfl, rfl⟩

/-- C10 witness: on the empty registry view, `get 5`, `getByName "foo"`
and `getByAddress "0xabc"` all fall back to the default entity. -/
theorem c10_sources_default_fallback_witness :
    Sources.get emptySources 5 = getDefaultSource ∧
    Sources.getByName emptySources "foo" true = some getDefaultSource ∧
    ∃ e, Sources.getByAddress emptySources 1 "0xabc" none none true = some e ∧
      e.id = 0 ∧ e.address = AddressZero := by
  refine ⟨?_, ?_, ?_⟩
  · exact c10_sources_default_fallback.1 emptySources 5 rfl
  · exact c10_sources_default_fallback.2.2.2.1 emptySources "foo" rfl
  · exact c10_sources_default_fallback.2.2.2.2 emptySources 1 "0xabc" none none rfl

end SourcesModel

namespace OpenDao

/-- C2: ingestion is idempotent.  Part one: after a single-order `save`
that returned `success`, re-ingesting the same order (at any later time,
with or without arweave relay) returns `already-exists` and leaves the
table untouched, and the first ingestion grew the table by at most one
row.  Part two: the conflict-ignoring bulk insert never changes the row
persisted under an already-known identity.  Part three: replaying any
batch over the state it produced leaves the persisted state unchanged. -/
theorem c2_idempotent_ingestion (cfg : Config) (t t2 : Nat) (info : OrderInfo)
    (db : OrdersDB) (relay relay2 : Bool) :
    ((save cfg t [info] relay db).results = [⟨info.ext.hashId, .success⟩] →
      (save cfg t2 [info] relay2 ((save cfg t [info] relay db).db)).results
          = [⟨info.ext.hashId, .alreadyExists⟩] ∧
      (save cfg t2 [info] relay2 ((save cfg t [info] relay db).db)).db
          = (save cfg t [info] relay db).db ∧
      ((save cfg t [info] relay db).db).rows.length ≤ db.rows.length + 1) ∧
    (∀ (id : String) (r : DbOrder) (rows : List DbOrder),
      lookupById db id = some r → lookupById (insertMany db rows) id = some r) ∧
    (∀ (infos : List OrderInfo) (relay3 : Bool),
      (save cfg t infos relay3 ((save cfg t infos relay3 db).db)).db
          = (save cfg t infos relay3 db).db) := by
  refine ⟨?_, ?_, ?_⟩
  · intro h
    rw [save_results] at h
    cases hx : handleOrder cfg t db info with
    | dropped =>
      simp [processOrders, handleInto, hx] at h
    | result r orow =>
      simp [processOrders, handleInto, hx] at h
      subst h
      cases orow with
      | none =>
        have := (handleOrder_result_inv hx).2.1
        simp at this
      | some row =>
        have hrid : row.id = info.ext.hashId := ((handleOrder_result_inv hx).2.2 row rfl).1
        have hdb1 : (save cfg t [info] relay db).db = insertMany db [row] := by
          unfold save persistAndNotify
          simp [processOrders, handleInto, hx]
        have hid1 : orderIdExists (insertMany db [row]) info.ext.hashId = true := by
          rw [← hrid]
          exact insertMany_mem_id (List.mem_singleton.mpr rfl)
        have h2nd : handleOrder cfg t2 (insertMany db [row]) info
            = .result ⟨info.ext.hashId, .alreadyExists⟩ none :=
          handleOrder_of_idExists hid1
        refine ⟨?_, ?_, ?_⟩
        · rw [hdb1, save_results]
          simp [processOrders, handleInto, h2nd]
        · rw [hdb1]
          unfold save persistAndNotify
          simp [processOrders, handleInto, h2nd]
        · rw [hdb1]
          exact insertRow_length db row
  · intro id r rows h
    exact lookupById_insertMany h
  · intro infos relay3
    by_cases hov : (processOrders cfg t db relay3 infos).orderValues = []
    · have hdb : (save cfg t infos relay3 db).db = db := by
        unfold save persistAndNotify
        simp [hov]
      rw [hdb]
      exact hdb
    · have hdb : (save cfg t infos relay3 db).db
          = insertMany db (processOrders cfg t db relay3 infos).orderValues := by
        unfold save persistAndNotify
        simp [hov]
      have hnone : ∀ i ∈ infos,
          rowOf (handleOrder cfg t
            (insertMany db (processOrders cfg t db relay3 infos).orderValues) i) = none := by
        intro i hi
        cases hh : handleOrder cfg t
            (insertMany db (processOrders cfg t db relay3 infos).orderValues) i with
        | dropped => rfl
        | result r2 orow =>
          cases horow : orow with
          | none => simp [rowOf]
          | some row2 =>
            exfalso
            subst horow
            obtain ⟨extra, hex⟩ :=
              insertMany_rows_append db (processOrders cfg t db relay3 infos).orderValues
            have hcast : insertMany db (processOrders cfg t db relay3 infos).orderValues
                = (⟨db.rows ++ extra⟩ : OrdersDB) := by
              have hself : insertMany db (processOrders cfg t db relay3 infos).orderValues
                  = ⟨(insertMany db (processOrders cfg t db relay3 infos).orderValues).rows⟩ :=
                rfl
              rw [hex] at hself
              exact hself
            rw [hcast] at hh
            have hacc := handleOrder_accepted_append hh
            have hmem : row2 ∈ (processOrders cfg t db relay3 infos).orderValues :=
              processOrders_row_mem hi hacc
            have hid : orderIdExists
                (insertMany db (processOrders cfg t db relay3 infos).orderValues) row2.id
                = true := insertMany_mem_id hmem
            have hrid : row2.id = i.ext.hashId :=
              ((handleOrder_result_inv hacc).2.2 row2 rfl).1
            rw [hrid] at hid
            have halready := @handleOrder_of_idExists cfg t
              (insertMany db (processOrders cfg t db relay3 infos).orderValues) i hid
            rw [hcast] at halready
            rw [halready] at hh
            simp at hh
      have hov2 : BatchAcc.orderValues (processOrders cfg t
          (insertMany db (processOrders cfg t db relay3 infos).orderValues) relay3 infos)
          = [] := processOrders_orderValues_nil hnone
      rw [hdb]
      unfold save persistAndNotify
      simp [hov2]

/-- C2 witness: the single valid order `info721` on the empty table:
the first ingestion succeeds, the second returns `already-exists` with
the table unchanged, and the table grew by at most one row. -/
theorem c2_idempotent_ingestion_witness :
    (save cfg0 7 [info721] true ((save cfg0 5 [info721] false emptyDb).db)).results
        = [⟨"0xh721", .alreadyExists⟩] ∧
    (save cfg0 7 [info721] true ((save cfg0 5 [info721] false emptyDb).db)).db
        = (save cfg0 5 [info721] false emptyDb).db ∧
    ((save cfg0 5 [info721] false emptyDb).db).rows.length ≤ emptyDb.rows.length + 1 :=
  (c2_idempotent_ingestion cfg0 5 7 info721 emptyDb false true).1 (by decide)

end OpenDao
